import Mathlib

/-!
Verification of the asynchronous refresh engine and view-state coordination
of the kgo terminal dashboard (pkg/tui/tui.go), via a shallow embedding.

Machine integers (Go int) are modelled as Int; Go slices as List; the
gateway (pkg/k8s client) outcome of each remote call is a parameter.
Strings formatted from wall-clock time (ages, creation timestamps) are
carried on the resource records as the already-formatted strings, since
real time and float formatting are outside the embedding; no theorem
below depends on their contents.
-/

namespace KGo

/-- ResourceType (tui.go 30-37): the four resource kinds scheduled by a
refresh cycle. The Go value is an int constant; the enumeration is closed
in all uses relevant here. -/
inductive ResourceType
  | pods
  | deployments
  | services
  | configMaps
deriving DecidableEq, Repr

/-- ViewMode (tui.go 40-48). -/
inductive ViewMode
  | list
  | details
  | yaml
  | logs
  | relationships
deriving DecidableEq, Repr

/-- v1.Pod, restricted to the fields read by tui.go. labels is the Labels
map as an association list (unique keys in Go); containerReady is the list
of Status.ContainerStatuses[i].Ready flags; ownerRefs carries
(Kind, Name) of each OwnerReference; volumeConfigMaps / envConfigMapRefs
are the ConfigMap names referenced from Spec.Volumes and container env;
ageStr / createdStr are the display strings formatDuration(time.Since(
CreationTimestamp)) and CreationTimestamp.Format(...) at the render
instant. -/
structure Pod where
  name : String
  nameSpace : String
  phase : String
  nodeName : String
  labels : List (String × String)
  containerReady : List Bool
  ownerRefs : List (String × String)
  volumeConfigMaps : List String
  envConfigMapRefs : List String
  ageStr : String
  createdStr : String
deriving DecidableEq, Repr

/-- appsv1.Deployment, restricted to the fields read by tui.go.
The replica counters are Go int32 values. -/
structure Deployment where
  name : String
  nameSpace : String
  replicas : Int
  readyReplicas : Int
  updatedReplicas : Int
  availableReplicas : Int
  ageStr : String
  createdStr : String
deriving DecidableEq, Repr

/-- v1.Service, restricted to the fields read by tui.go. ingressIPs are
Status.LoadBalancer.Ingress[i].IP; ports are Spec.Ports[i].Port. -/
structure Service where
  name : String
  nameSpace : String
  typeStr : String
  clusterIP : String
  ingressIPs : List String
  ports : List Int
  selector : List (String × String)
  createdStr : String
deriving DecidableEq, Repr

/-- v1.ConfigMap, restricted to the fields read by tui.go. -/
structure ConfigMap where
  name : String
  nameSpace : String
  dataKeys : List String
  binaryDataKeys : List String
  ageStr : String
  createdStr : String
deriving DecidableEq, Repr

/-- The dynamic resource value (Go interface{} inspected by type switches):
an explicit sum over the four kinds handled by the TUI. -/
inductive Resource
  | pod (p : Pod)
  | deployment (d : Deployment)
  | service (s : Service)
  | configMap (c : ConfigMap)
deriving DecidableEq, Repr

/-- DisplayName (tui.go 131-144). The Go default branch returns
"Unknown"; the inductive type is closed so it has no counterpart. -/
def DisplayName (rt : ResourceType) : String :=
  match rt with
  | .pods => "Pods"
  | .deployments => "Deployments"
  | .services => "Services"
  | .configMaps => "ConfigMaps"

/-- Go map read m[k] with string values: the zero value "" when the key
is absent. -/
def lookupD (m : List (String × String)) (k : String) : String :=
  match m.find? (fun p => p.1 == k) with
  | some p => p.2
  | none => ""

/-- Containment of pat as a contiguous run of the character list. -/
def charsContains (pat : List Char) : List Char → Bool
  | [] => pat.isEmpty
  | c :: rest => List.isPrefixOf pat (c :: rest) || charsContains pat rest

/-- strings.Contains(s, pat): substring containment. -/
def strContains (s pat : String) : Bool :=
  charsContains pat.data s.data

/-- strings.ToLower, character-wise (ASCII case folding; full Unicode
folding is outside the embedding and no theorem depends on it). -/
def strToLower (s : String) : String :=
  String.mk (s.data.map Char.toLower)

/-- getResourceName (tui.go 1177-1190). The Go default branch (a value of
none of the four kinds) returns ""; the sum type is closed so every value
is one of the four cases. -/
def getResourceName (resource : Resource) : String :=
  match resource with
  | .pod r => r.name
  | .deployment r => r.name
  | .service r => r.name
  | .configMap r => r.name

/-- getReadyCount (tui.go 2023-2032): "ready/total" over the container
statuses. -/
def getReadyCount (pod : Pod) : String :=
  toString (pod.containerReady.count true) ++ "/" ++ toString pod.containerReady.length

/-- getResourceColumnValue (tui.go 1193-1255). Sprintf("%d", n) on an
int32 is toString on Int; the Age columns return the carried display
string (see the module comment). -/
def getResourceColumnValue (resource : Resource) (colIndex : Nat) : String :=
  match resource with
  | .pod r =>
    match colIndex with
    | 0 => r.name
    | 1 => r.phase
    | 2 => getReadyCount r
    | 3 => r.ageStr
    | 4 => r.nodeName
    | _ => ""
  | .deployment r =>
    match colIndex with
    | 0 => r.name
    | 1 => toString r.readyReplicas ++ "/" ++ toString r.replicas
    | 2 => toString r.updatedReplicas
    | 3 => toString r.availableReplicas
    | 4 => r.ageStr
    | _ => ""
  | .service r =>
    match colIndex with
    | 0 => r.name
    | 1 => r.typeStr
    | 2 => r.clusterIP
    | 3 => (match r.ingressIPs with
            | ip :: _ => ip
            | [] => "<none>")
    | 4 => String.intercalate "," (r.ports.map toString)
    | _ => ""
  | .configMap r =>
    match colIndex with
    | 0 => r.name
    | 1 => toString (r.dataKeys.length + r.binaryDataKeys.length)
    | 2 => r.ageStr
    | _ => ""

/-- getTableHeaders (tui.go 1258-1271), as a function of the current
view. The Go default branch is unreachable for the closed enumeration. -/
def getTableHeaders (rt : ResourceType) : List String :=
  match rt with
  | .pods => ["Name", "Status", "Ready", "Age", "Node"]
  | .deployments => ["Name", "Ready", "Up-to-date", "Available", "Age"]
  | .services => ["Name", "Type", "Cluster-IP", "External-IP", "Ports"]
  | .configMaps => ["Name", "Data", "Age"]

/-- The TUI state (struct TUI, tui.go 147-194), restricted to the
coordination fields: the screen handle, clientset, theme, split-pane
ratios, scroll offsets, help flag and the unused relationships cache are
presentation-only and carry no coordination state. Go ints are Int. -/
structure TUI where
  pods : List Pod
  selected : Int
  nameSpace : String
  filter : String
  loading : Bool
  loadingCounter : Int
  filterMode : Bool
  columnFilters : List String
  useRegex : Bool
  caseSensitive : Bool
  inverseFilter : Bool
  currentView : ResourceType
  viewMode : ViewMode
  deployments : List Deployment
  services : List Service
  configMaps : List ConfigMap
deriving DecidableEq, Repr

/-- NewTUI (tui.go 209-255): the initial field values. -/
def initialTUI : TUI where
  pods := []
  selected := 0
  nameSpace := "kube-system"
  filter := ""
  loading := false
  loadingCounter := 0
  filterMode := false
  columnFilters := ["", "", "", "", ""]
  useRegex := false
  caseSensitive := false
  inverseFilter := false
  currentView := .pods
  viewMode := .list
  deployments := []
  services := []
  configMaps := []

/-- The column-filter loop of matchesFilter (tui.go 1133-1167): for each
indexed column filter, skip it when empty or out of the header range,
otherwise require substring containment of the filter in the column
value. The Go loop sets match=false and breaks at the first mismatch,
which is the conjunction over all non-skipped entries; the regex branch
is textually identical to the plain branch (the TODO at tui.go 1142). -/
def columnFiltersMatch (t : TUI) (resource : Resource) : Bool :=
  t.columnFilters.enum.all fun p =>
    if p.2 == "" || (getTableHeaders t.currentView).length ≤ p.1 then
      true
    else
      let colValue := getResourceColumnValue resource p.1
      if t.useRegex then
        if t.caseSensitive then strContains colValue p.2
        else strContains (strToLower colValue) (strToLower p.2)
      else
        if t.caseSensitive then strContains colValue p.2
        else strContains (strToLower colValue) (strToLower p.2)

/-- matchesFilter (tui.go 1094-1174). In simple mode (filterMode false)
only the global filter against the display name applies and the inverse
flag is never consulted; in advanced mode the global-filter match (the
regex branch textually identical to the plain one, tui.go 1117-1130) is
conjoined with the column filters and then negated by inverseFilter. -/
def matchesFilter (t : TUI) (resource : Resource) : Bool :=
  if t.filter == "" && !t.filterMode then
    true
  else
    let name := getResourceName resource
    if name == "" then
      false
    else if !t.filterMode then
      if t.caseSensitive then strContains name t.filter
      else strContains (strToLower name) (strToLower t.filter)
    else
      let globalMatch :=
        if t.filter != "" then
          if t.useRegex then
            if t.caseSensitive then strContains name t.filter
            else strContains (strToLower name) (strToLower t.filter)
          else
            if t.caseSensitive then strContains name t.filter
            else strContains (strToLower name) (strToLower t.filter)
        else true
      let m := globalMatch && columnFiltersMatch t resource
      if t.inverseFilter then !m else m

/-- The collection selected by the current view, wrapped into the dynamic
resource type: the first half of getFilteredResources (tui.go
1055-1076). -/
def currentResources (t : TUI) : List Resource :=
  match t.currentView with
  | .pods => t.pods.map Resource.pod
  | .deployments => t.deployments.map Resource.deployment
  | .services => t.services.map Resource.service
  | .configMaps => t.configMaps.map Resource.configMap

/-- The filtering half of getFilteredResources (tui.go 1078-1090), as a
function of the input collection (the FilteringEngine of the spec): when
no filter is active the collection passes through, otherwise the
resources matching the filter are kept in order. -/
def filterList (t : TUI) (resources : List Resource) : List Resource :=
  if t.filter == "" && !t.filterMode then resources
  else resources.filter (matchesFilter t)

/-- getFilteredResources (tui.go 1055-1091). -/
def getFilteredResources (t : TUI) : List Resource :=
  filterList t (currentResources t)

/-- moveSelection (tui.go 574-587): no-op on an empty filtered view,
otherwise add the delta and clamp into the filtered range (low bound
first, then high bound, as in the source). -/
def moveSelection (t : TUI) (delta : Int) : TUI :=
  let filtered := getFilteredResources t
  if filtered.length == 0 then t
  else
    let s1 := t.selected + delta
    let s2 := if s1 < 0 then 0 else s1
    let s3 := if (filtered.length : Int) ≤ s2 then (filtered.length : Int) - 1 else s2
    { t with selected := s3 }

/-- Switching the current kind (keys 1-4 and Tab, tui.go 334-336 and
357-368): set the view and reset the selection to 0. -/
def switchKind (t : TUI) (rt : ResourceType) : TUI :=
  { t with currentView := rt, selected := 0 }

/-- Committing the search dialog (tui.go 2058-2061): replace the filter
text and reset the selection to 0. -/
def setFilter (t : TUI) (text : String) : TUI :=
  { t with filter := text, selected := 0 }

/-- clearFilter (tui.go 2081-2084). -/
def clearFilter (t : TUI) : TUI :=
  { t with filter := "", selected := 0 }

/-- nextViewMode (tui.go 634-651): from YAML the cycle continues to Logs
only when the current kind is Pods, and otherwise returns directly to
List. -/
def nextViewMode (t : TUI) : TUI :=
  { t with
    viewMode :=
      match t.viewMode with
      | .list => .details
      | .details => .yaml
      | .yaml => if t.currentView == ResourceType.pods then .logs else .list
      | .logs => .relationships
      | .relationships => .list }

/-- DataUpdate (tui.go 20-27): the result message one worker posts on the
queue; exactly one of the collection fields is meaningful, tagged by
resourceType. The error is carried as its message. -/
structure DataUpdate where
  resourceType : ResourceType
  pods : List Pod
  deployments : List Deployment
  services : List Service
  configMaps : List ConfigMap
  error : Option String
deriving DecidableEq, Repr

/-- The outcome of each remote list call of one refresh cycle: the
gateway is an external collaborator, so its per-kind responses are the
parameters of the cycle. -/
structure Gateway where
  podsResult : Except String (List Pod)
  deploymentsResult : Except String (List Deployment)
  servicesResult : Except String (List Service)
  configMapsResult : Except String (List ConfigMap)

/-- k8s.ListPods (pkg/k8s/client.go 57-64): returns (items, nil) on
success and (nil, err) on failure; the remote outcome is the argument. -/
def ListPods (result : Except String (List Pod)) : List Pod × Option String :=
  match result with
  | .ok items => (items, none)
  | .error e => ([], some e)

/-- k8s.ListDeployments (pkg/k8s/client.go 107-114). -/
def ListDeployments (result : Except String (List Deployment)) :
    List Deployment × Option String :=
  match result with
  | .ok items => (items, none)
  | .error e => ([], some e)

/-- k8s.ListServices (pkg/k8s/client.go). -/
def ListServices (result : Except String (List Service)) :
    List Service × Option String :=
  match result with
  | .ok items => (items, none)
  | .error e => ([], some e)

/-- k8s.ListConfigMaps (pkg/k8s/client.go). -/
def ListConfigMaps (result : Except String (List ConfigMap)) :
    List ConfigMap × Option String :=
  match result with
  | .ok items => (items, none)
  | .error e => ([], some e)

/-- loadPodsAsync (tui.go 433-441): the single update the pods worker
posts, tagged ResourcePods, carrying the listed items and the error of
the call. The worker is a total function: it posts exactly one message
whether the call succeeded or failed. -/
def loadPodsAsync (g : Gateway) : DataUpdate where
  resourceType := .pods
  pods := (ListPods g.podsResult).1
  deployments := []
  services := []
  configMaps := []
  error := (ListPods g.podsResult).2

/-- loadDeploymentsAsync (tui.go 444-452). -/
def loadDeploymentsAsync (g : Gateway) : DataUpdate where
  resourceType := .deployments
  pods := []
  deployments := (ListDeployments g.deploymentsResult).1
  services := []
  configMaps := []
  error := (ListDeployments g.deploymentsResult).2

/-- loadServicesAsync (tui.go 455-463). -/
def loadServicesAsync (g : Gateway) : DataUpdate where
  resourceType := .services
  pods := []
  deployments := []
  services := (ListServices g.servicesResult).1
  configMaps := []
  error := (ListServices g.servicesResult).2

/-- loadConfigMapsAsync (tui.go 466-474). -/
def loadConfigMapsAsync (g : Gateway) : DataUpdate where
  resourceType := .configMaps
  pods := []
  deployments := []
  services := []
  configMaps := (ListConfigMaps g.configMapsResult).1
  error := (ListConfigMaps g.configMapsResult).2

/-- refreshData (tui.go 411-430): set loading, reset the pending counter
to 4 and clear the four collections. The four workers are launched only
after this state is in place; their four posted messages are
refreshWorkerUpdates below, delivered to the consumer in an arbitrary
arrival order. -/
def refreshData (t : TUI) : TUI :=
  { t with
    loading := true
    loadingCounter := 4
    pods := []
    deployments := []
    services := []
    configMaps := [] }

/-- The four result messages posted by the workers of one refresh cycle
(tui.go 424-427), one per kind. -/
def refreshWorkerUpdates (g : Gateway) : List DataUpdate :=
  [loadPodsAsync g, loadDeploymentsAsync g, loadServicesAsync g,
   loadConfigMapsAsync g]

/-- adjustSelection (tui.go 552-571): clamp the selection against the
length of the current kind's raw (unfiltered) collection — high bound
first, then low bound, as in the source. -/
def adjustSelection (t : TUI) : TUI :=
  let maxItems : Int :=
    match t.currentView with
    | .pods => t.pods.length
    | .deployments => t.deployments.length
    | .services => t.services.length
    | .configMaps => t.configMaps.length
  let s1 := if maxItems ≤ t.selected then maxItems - 1 else t.selected
  let s2 := if s1 < 0 then 0 else s1
  { t with selected := s2 }

/-- The collection replacement of handleDataUpdate (tui.go 525-538): the
kind tagged in the update has its collection replaced in full; the error,
if any, is only logged (tui.go 520-523). -/
def applyUpdate (t : TUI) (update : DataUpdate) : TUI :=
  match update.resourceType with
  | .pods => { t with pods := update.pods }
  | .deployments => { t with deployments := update.deployments }
  | .services => { t with services := update.services }
  | .configMaps => { t with configMaps := update.configMaps }

/-- handleDataUpdate (tui.go 519-549): replace the tagged collection,
decrement the pending counter, and when it reaches (or passes) zero clear
the loading flag and re-clamp the selection. -/
def handleDataUpdate (t : TUI) (update : DataUpdate) : TUI :=
  let t2 := { applyUpdate t update with
              loadingCounter := (applyUpdate t update).loadingCounter - 1 }
  if t2.loadingCounter ≤ 0 then
    adjustSelection { t2 with loading := false }
  else t2

/-- The consumer loop handleDataUpdates (tui.go 510-516) draining the
queue: the argument list is the arrival order of the messages. -/
def processUpdates (t : TUI) (updates : List DataUpdate) : TUI :=
  updates.foldl handleDataUpdate t

/-- getSelectedResource (tui.go 1500-1506): nil unless the selection
index is inside the filtered view. -/
def getSelectedResource (t : TUI) : Option Resource :=
  let filtered := getFilteredResources t
  if t.selected < 0 || (filtered.length : Int) ≤ t.selected then none
  else filtered[t.selected.toNat]?

/-- podMatchesService (tui.go 1647-1654): every selector entry must agree
with the pod's label map, read with Go's zero-value semantics (an absent
key reads as ""). -/
def podMatchesService (pod : Pod) (svc : Service) : Bool :=
  svc.selector.all fun kv => lookupD pod.labels kv.1 == kv.2

/-- podUsesConfigMap (tui.go 1657-1675): the pod references the config
map from a volume or from a container env var. -/
def podUsesConfigMap (pod : Pod) (cm : ConfigMap) : Bool :=
  pod.volumeConfigMaps.any (fun n => n == cm.name) ||
  pod.envConfigMapRefs.any (fun n => n == cm.name)

/-- The delete call a confirmed deletion issues to the gateway
(tui.go 705-714). -/
inductive DeleteCall
  | pod (name : String)
  | deployment (name : String)
  | service (name : String)
  | configMap (name : String)
deriving DecidableEq, Repr

/-- deleteSelectedResource (tui.go 672-727). confirmYes is whether the
user answered 'y' at the confirmation prompt; deleteErr the outcome of
the gateway delete. With no selected resource the function returns at
once, changing nothing and issuing no call; on a confirmed successful
delete it triggers refreshData. Screen drawing and the 2-second error
banner are presentation. -/
def deleteSelectedResource (t : TUI) (confirmYes : Bool)
    (deleteErr : Option String) : TUI × Option DeleteCall :=
  match getSelectedResource t with
  | none => (t, none)
  | some r =>
    if confirmYes then
      let call :=
        match r with
        | .pod p => DeleteCall.pod p.name
        | .deployment d => DeleteCall.deployment d.name
        | .service s => DeleteCall.service s.name
        | .configMap c => DeleteCall.configMap c.name
      match deleteErr with
      | some _ => (t, some call)
      | none => (refreshData t, some call)
    else (t, none)

/-- getPodDetails (tui.go 1678-1688). -/
def getPodDetails (pod : Pod) : List String :=
  ["Name: " ++ pod.name,
   "Namespace: " ++ pod.nameSpace,
   "Status: " ++ pod.phase,
   "Node: " ++ pod.nodeName,
   "Created: " ++ pod.createdStr,
   "",
   "Containers:"]

/-- getDeploymentDetails (tui.go 1691-1701). -/
def getDeploymentDetails (dep : Deployment) : List String :=
  ["Name: " ++ dep.name,
   "Namespace: " ++ dep.nameSpace,
   "Replicas: " ++ toString dep.replicas,
   "Ready: " ++ toString dep.readyReplicas,
   "Available: " ++ toString dep.availableReplicas,
   "Updated: " ++ toString dep.updatedReplicas,
   "Created: " ++ dep.createdStr]

/-- getServiceDetails (tui.go 1704-1714). -/
def getServiceDetails (svc : Service) : List String :=
  ["Name: " ++ svc.name,
   "Namespace: " ++ svc.nameSpace,
   "Type: " ++ svc.typeStr,
   "Cluster IP: " ++ svc.clusterIP,
   "Created: " ++ svc.createdStr,
   "",
   "Ports:"]

/-- getConfigMapDetails (tui.go 1717-1733). -/
def getConfigMapDetails (cm : ConfigMap) : List String :=
  ["Name: " ++ cm.name,
   "Namespace: " ++ cm.nameSpace,
   "Data items: " ++ toString cm.dataKeys.length,
   "Binary data items: " ++ toString cm.binaryDataKeys.length,
   "Created: " ++ cm.createdStr,
   "",
   "Data keys:"] ++ cm.dataKeys.map (fun key => "  - " ++ key)

/-- getResourceDetails (tui.go 1509-1521). -/
def getResourceDetails (resource : Resource) : List String :=
  match resource with
  | .pod r => getPodDetails r
  | .deployment r => getDeploymentDetails r
  | .service r => getServiceDetails r
  | .configMap r => getConfigMapDetails r

/-- Stand-in for getResourceYAML (tui.go 1524-1530): json.MarshalIndent
of the full API object is represented by a rendering of the modelled
fields; no theorem depends on its text, only on which branch of
drawYAMLView runs. -/
def getResourceYAML (resource : Resource) : String :=
  String.intercalate "\n" (getResourceDetails resource)

/-- The text lines drawn by drawDetailsView (tui.go 1367-1392):
coordinates, styles, scrolling and height truncation are pure geometry
and are omitted. With no selected resource only the early-return message
is drawn. -/
def drawDetailsView (t : TUI) : List String :=
  match getSelectedResource t with
  | none => ["No resource selected"]
  | some r =>
    (" 📋 " ++ DisplayName t.currentView ++ " Details ") ::
      getResourceDetails r ++ [" ESC Back │ y YAML │ l Logs (pods only) "]

/-- The text lines drawn by drawYAMLView (tui.go 1395-1423), with the
same geometry omissions. -/
def drawYAMLView (t : TUI) : List String :=
  match getSelectedResource t with
  | none => ["No resource selected"]
  | some r =>
    (" 📄 " ++ DisplayName t.currentView ++ " YAML ") ::
      (getResourceYAML r).splitOn "\n" ++ [" ESC Back │ ↑↓ Scroll "]

/-! Helper lemmas about the update pipeline. -/

theorem applyUpdate_loadingCounter (t : TUI) (u : DataUpdate) :
    (applyUpdate t u).loadingCounter = t.loadingCounter := by
  obtain ⟨rt, ps, ds, ss, cs, er⟩ := u
  cases rt <;> rfl

theorem applyUpdate_loading (t : TUI) (u : DataUpdate) :
    (applyUpdate t u).loading = t.loading := by
  obtain ⟨rt, ps, ds, ss, cs, er⟩ := u
  cases rt <;> rfl

theorem applyUpdate_selected (t : TUI) (u : DataUpdate) :
    (applyUpdate t u).selected = t.selected := by
  obtain ⟨rt, ps, ds, ss, cs, er⟩ := u
  cases rt <;> rfl

theorem applyUpdate_currentView (t : TUI) (u : DataUpdate) :
    (applyUpdate t u).currentView = t.currentView := by
  obtain ⟨rt, ps, ds, ss, cs, er⟩ := u
  cases rt <;> rfl

theorem applyUpdate_pods (t : TUI) (u : DataUpdate) :
    (applyUpdate t u).pods =
      if u.resourceType = ResourceType.pods then u.pods else t.pods := by
  obtain ⟨rt, ps, ds, ss, cs, er⟩ := u
  cases rt <;> simp [applyUpdate]

theorem applyUpdate_deployments (t : TUI) (u : DataUpdate) :
    (applyUpdate t u).deployments =
      if u.resourceType = ResourceType.deployments then u.deployments
      else t.deployments := by
  obtain ⟨rt, ps, ds, ss, cs, er⟩ := u
  cases rt <;> simp [applyUpdate]

theorem applyUpdate_services (t : TUI) (u : DataUpdate) :
    (applyUpdate t u).services =
      if u.resourceType = ResourceType.services then u.services
      else t.services := by
  obtain ⟨rt, ps, ds, ss, cs, er⟩ := u
  cases rt <;> simp [applyUpdate]

theorem applyUpdate_configMaps (t : TUI) (u : DataUpdate) :
    (applyUpdate t u).configMaps =
      if u.resourceType = ResourceType.configMaps then u.configMaps
      else t.configMaps := by
  obtain ⟨rt, ps, ds, ss, cs, er⟩ := u
  cases rt <;> simp [applyUpdate]

theorem adjustSelection_loadingCounter (t : TUI) :
    (adjustSelection t).loadingCounter = t.loadingCounter := rfl

theorem adjustSelection_loading (t : TUI) :
    (adjustSelection t).loading = t.loading := rfl

theorem adjustSelection_pods (t : TUI) :
    (adjustSelection t).pods = t.pods := rfl

theorem adjustSelection_deployments (t : TUI) :
    (adjustSelection t).deployments = t.deployments := rfl

theorem adjustSelection_services (t : TUI) :
    (adjustSelection t).services = t.services := rfl

theorem adjustSelection_configMaps (t : TUI) :
    (adjustSelection t).configMaps = t.configMaps := rfl

theorem adjustSelection_currentView (t : TUI) :
    (adjustSelection t).currentView = t.currentView := rfl

theorem handleDataUpdate_loadingCounter (t : TUI) (u : DataUpdate) :
    (handleDataUpdate t u).loadingCounter = t.loadingCounter - 1 := by
  simp only [handleDataUpdate]
  split
  · rw [adjustSelection_loadingCounter]
    simp [applyUpdate_loadingCounter]
  · simp [applyUpdate_loadingCounter]

theorem handleDataUpdate_loading (t : TUI) (u : DataUpdate) :
    (handleDataUpdate t u).loading =
      if t.loadingCounter - 1 ≤ 0 then false else t.loading := by
  simp only [handleDataUpdate, applyUpdate_loadingCounter]
  split
  · rw [adjustSelection_loading]
  · simp_all [applyUpdate_loading]

theorem handleDataUpdate_pods (t : TUI) (u : DataUpdate) :
    (handleDataUpdate t u).pods =
      if u.resourceType = ResourceType.pods then u.pods else t.pods := by
  simp only [handleDataUpdate]
  split
  · rw [adjustSelection_pods]
    simp [applyUpdate_pods]
  · simp [applyUpdate_pods]

theorem handleDataUpdate_deployments (t : TUI) (u : DataUpdate) :
    (handleDataUpdate t u).deployments =
      if u.resourceType = ResourceType.deployments then u.deployments
      else t.deployments := by
  simp only [handleDataUpdate]
  split
  · rw [adjustSelection_deployments]
    simp [applyUpdate_deployments]
  · simp [applyUpdate_deployments]

theorem handleDataUpdate_services (t : TUI) (u : DataUpdate) :
    (handleDataUpdate t u).services =
      if u.resourceType = ResourceType.services then u.services
      else t.services := by
  simp only [handleDataUpdate]
  split
  · rw [adjustSelection_services]
    simp [applyUpdate_services]
  · simp [applyUpdate_services]

theorem handleDataUpdate_configMaps (t : TUI) (u : DataUpdate) :
    (handleDataUpdate t u).configMaps =
      if u.resourceType = ResourceType.configMaps then u.configMaps
      else t.configMaps := by
  simp only [handleDataUpdate]
  split
  · rw [adjustSelection_configMaps]
    simp [applyUpdate_configMaps]
  · simp [applyUpdate_configMaps]

theorem processUpdates_loadingCounter (us : List DataUpdate) (t : TUI) :
    (processUpdates t us).loadingCounter = t.loadingCounter - us.length := by
  induction us generalizing t with
  | nil => simp [processUpdates]
  | cons u us ih =>
    simp only [processUpdates, List.foldl_cons] at *
    rw [ih, handleDataUpdate_loadingCounter]
    simp only [List.length_cons]
    push_cast
    ring

theorem processUpdates_loading_iff (us : List DataUpdate) (t : TUI)
    (h : t.loading = true ↔ 0 < t.loadingCounter) :
    ((processUpdates t us).loading = true ↔
      0 < (processUpdates t us).loadingCounter) := by
  induction us generalizing t with
  | nil => simpa [processUpdates] using h
  | cons u us ih =>
    simp only [processUpdates, List.foldl_cons] at *
    apply ih
    rw [handleDataUpdate_loading, handleDataUpdate_loadingCounter]
    split
    · rename_i hc
      simp only [Bool.false_eq_true, false_iff]
      omega
    · rename_i hc
      rw [h]
      omega

theorem processUpdates_cons (t : TUI) (u : DataUpdate) (us : List DataUpdate) :
    processUpdates t (u :: us) = processUpdates (handleDataUpdate t u) us := rfl

/-- A state projection that only the updates of kind rt overwrite is
untouched by a batch containing no update of that kind. -/
theorem processUpdates_proj_of_none {α : Type} (f : TUI → α)
    (sel : DataUpdate → α) (rt : ResourceType)
    (hstep : ∀ t u, f (handleDataUpdate t u) =
      if u.resourceType = rt then sel u else f t)
    (us : List DataUpdate) (t : TUI)
    (h : us.filter (fun u => u.resourceType == rt) = []) :
    f (processUpdates t us) = f t := by
  induction us generalizing t with
  | nil => rfl
  | cons u us ih =>
    rw [List.filter_cons] at h
    by_cases hu : (u.resourceType == rt) = true
    · rw [if_pos hu] at h
      exact absurd h (List.cons_ne_nil _ _)
    · rw [if_neg hu] at h
      rw [processUpdates_cons, ih _ h, hstep, if_neg]
      simpa using hu

/-- A state projection that only the updates of kind rt overwrite ends up
holding the payload of the unique update of that kind in the batch,
whatever the arrival order around it. -/
theorem processUpdates_proj_of_single {α : Type} (f : TUI → α)
    (sel : DataUpdate → α) (rt : ResourceType)
    (hstep : ∀ t u, f (handleDataUpdate t u) =
      if u.resourceType = rt then sel u else f t)
    (us : List DataUpdate) (t : TUI) (w : DataUpdate)
    (h : us.filter (fun u => u.resourceType == rt) = [w]) :
    f (processUpdates t us) = sel w := by
  induction us generalizing t with
  | nil => simp at h
  | cons u us ih =>
    rw [List.filter_cons] at h
    by_cases hu : (u.resourceType == rt) = true
    · rw [if_pos hu] at h
      obtain ⟨rfl, hnil⟩ : u = w ∧ us.filter (fun v => v.resourceType == rt) = [] := by
        simpa using h
      rw [processUpdates_cons,
        processUpdates_proj_of_none f sel rt hstep us _ hnil, hstep,
        if_pos (by simpa using hu)]
    · rw [if_neg hu] at h
      rw [processUpdates_cons, ih _ h]

/-! Concrete sample data used by the witness theorems. -/

def mkPod (n : String) : Pod where
  name := n
  nameSpace := "default"
  phase := "Running"
  nodeName := ""
  labels := []
  containerReady := []
  ownerRefs := []
  volumeConfigMaps := []
  envConfigMapRefs := []
  ageStr := ""
  createdStr := ""

def mkDeployment (n : String) : Deployment where
  name := n
  nameSpace := "default"
  replicas := 1
  readyReplicas := 1
  updatedReplicas := 1
  availableReplicas := 1
  ageStr := ""
  createdStr := ""

def mkService (n : String) : Service where
  name := n
  nameSpace := "default"
  typeStr := "ClusterIP"
  clusterIP := "10.0.0.1"
  ingressIPs := []
  ports := [80]
  selector := []
  createdStr := ""

/-- A sample cycle: the pods fetch fails, the deployments fetch returns
one item, the other two kinds return empty collections. -/
def exGateway : Gateway where
  podsResult := Except.error "boom"
  deploymentsResult := Except.ok [mkDeployment "web"]
  servicesResult := Except.ok []
  configMapsResult := Except.ok []

/-- A shuffled arrival order of the four worker results of exGateway. -/
def exArrival : List DataUpdate :=
  [loadDeploymentsAsync exGateway, loadConfigMapsAsync exGateway,
   loadPodsAsync exGateway, loadServicesAsync exGateway]

/-- C1: every refresh cycle resets the pending counter to K = 4 and sets
loading; the consumer decrements the counter exactly once per consumed
result in any arrival order, so it holds 4 - n after n results and
exactly 0 after the 4 results, and the loading flag equals
(pendingCount > 0) at every point after the refresh is initiated. -/
theorem c1_pending_counter_loading (t : TUI) (us : List DataUpdate) :
    (refreshData t).loadingCounter = 4 ∧
    (refreshData t).loading = true ∧
    (processUpdates (refreshData t) us).loadingCounter = 4 - us.length ∧
    ((processUpdates (refreshData t) us).loading = true ↔
      0 < (processUpdates (refreshData t) us).loadingCounter) ∧
    (us.length = 4 →
      (processUpdates (refreshData t) us).loadingCounter = 0 ∧
      (processUpdates (refreshData t) us).loading = false) := by
  have hc := processUpdates_loadingCounter us (refreshData t)
  have hl := processUpdates_loading_iff us (refreshData t) (by simp [refreshData])
  refine ⟨rfl, rfl, by rw [hc]; rfl, hl, fun h4 => ?_⟩
  have hc0 : (processUpdates (refreshData t) us).loadingCounter = 0 := by
    rw [hc, h4]
    rfl
  refine ⟨hc0, ?_⟩
  have : ¬((processUpdates (refreshData t) us).loading = true) := by
    rw [hl, hc0]
    omega
  simpa using this

/-- Witness for C1 at a concrete cycle with 4 results. -/
theorem c1_witness :
    (processUpdates (refreshData initialTUI)
      (refreshWorkerUpdates exGateway)).loadingCounter = 0 ∧
    (processUpdates (refreshData initialTUI)
      (refreshWorkerUpdates exGateway)).loading = false :=
  (c1_pending_counter_loading initialTUI
    (refreshWorkerUpdates exGateway)).2.2.2.2 rfl

/-- C2: if the four worker results of a cycle arrive in any order, each
kind's collection afterwards is exactly what its own fetch returned —
data on success, empty on error — so an error on one kind never prevents
another kind's collection from being updated, and loading is false once
the cycle's results are consumed. -/
theorem c2_error_isolation (t : TUI) (g : Gateway) (us : List DataUpdate)
    (hperm : us.Perm (refreshWorkerUpdates g)) :
    (processUpdates (refreshData t) us).pods = (ListPods g.podsResult).1 ∧
    (processUpdates (refreshData t) us).deployments =
      (ListDeployments g.deploymentsResult).1 ∧
    (processUpdates (refreshData t) us).services =
      (ListServices g.servicesResult).1 ∧
    (processUpdates (refreshData t) us).configMaps =
      (ListConfigMaps g.configMapsResult).1 ∧
    (∀ e, g.podsResult = Except.error e →
      (processUpdates (refreshData t) us).pods = []) ∧
    (∀ l, g.deploymentsResult = Except.ok l →
      (processUpdates (refreshData t) us).deployments = l) ∧
    (processUpdates (refreshData t) us).loading = false ∧
    (processUpdates (refreshData t) us).loadingCounter = 0 := by
  have hlen : us.length = 4 := by
    have := hperm.length_eq
    simpa [refreshWorkerUpdates] using this
  have hfp : us.filter (fun u => u.resourceType == ResourceType.pods) =
      [loadPodsAsync g] :=
    List.perm_singleton.mp ((hperm.filter _).trans (by rfl))
  have hfd : us.filter (fun u => u.resourceType == ResourceType.deployments) =
      [loadDeploymentsAsync g] :=
    List.perm_singleton.mp ((hperm.filter _).trans (by rfl))
  have hfs : us.filter (fun u => u.resourceType == ResourceType.services) =
      [loadServicesAsync g] :=
    List.perm_singleton.mp ((hperm.filter _).trans (by rfl))
  have hfc : us.filter (fun u => u.resourceType == ResourceType.configMaps) =
      [loadConfigMapsAsync g] :=
    List.perm_singleton.mp ((hperm.filter _).trans (by rfl))
  have hpods := processUpdates_proj_of_single TUI.pods DataUpdate.pods
    ResourceType.pods handleDataUpdate_pods us (refreshData t) _ hfp
  have hdeps := processUpdates_proj_of_single TUI.deployments
    DataUpdate.deployments ResourceType.deployments
    handleDataUpdate_deployments us (refreshData t) _ hfd
  have hsvcs := processUpdates_proj_of_single TUI.services
    DataUpdate.services ResourceType.services handleDataUpdate_services us
    (refreshData t) _ hfs
  have hcms := processUpdates_proj_of_single TUI.configMaps
    DataUpdate.configMaps ResourceType.configMaps
    handleDataUpdate_configMaps us (refreshData t) _ hfc
  have hfin := (c1_pending_counter_loading t us).2.2.2.2 hlen
  refine ⟨hpods, hdeps, hsvcs, hcms, fun e he => ?_, fun l hl => ?_,
    hfin.2, hfin.1⟩
  · rw [hpods]
    show (ListPods g.podsResult).1 = []
    rw [he]
    rfl
  · rw [hdeps]
    show (ListDeployments g.deploymentsResult).1 = l
    rw [hl]
    rfl

/-- Witness for C2: pods fail, deployments succeed, shuffled arrival. -/
theorem c2_witness :
    (processUpdates (refreshData initialTUI) exArrival).pods = [] ∧
    (processUpdates (refreshData initialTUI) exArrival).deployments =
      [mkDeployment "web"] ∧
    (processUpdates (refreshData initialTUI) exArrival).loading = false := by
  have h := c2_error_isolation initialTUI exGateway exArrival (by decide)
  exact ⟨h.2.2.2.2.1 "boom" rfl, h.2.2.2.2.2.1 [mkDeployment "web"] rfl,
    h.2.2.2.2.2.2.1⟩

/-- C3: refreshData resets the pending counter to 4, sets loading and
clears the four collections before the workers run (the worker messages
are a separate value of the model, produced from this cleared state); the
four launched workers produce exactly one result each, tagged
pods, deployments, services, configMaps in turn — so one per kind, no
duplicates and no omissions — and carry the gateway error when the call
failed (the worker functions are total: no exception escapes). -/
theorem c3_refresh_reset_and_worker_protocol (t : TUI) (g : Gateway) :
    (refreshData t).loadingCounter = 4 ∧
    (refreshData t).loading = true ∧
    (refreshData t).pods = [] ∧
    (refreshData t).deployments = [] ∧
    (refreshData t).services = [] ∧
    (refreshData t).configMaps = [] ∧
    (refreshWorkerUpdates g).map DataUpdate.resourceType =
      [ResourceType.pods, ResourceType.deployments, ResourceType.services,
       ResourceType.configMaps] ∧
    (loadPodsAsync g).error = (ListPods g.podsResult).2 ∧
    (loadDeploymentsAsync g).error = (ListDeployments g.deploymentsResult).2 ∧
    (loadServicesAsync g).error = (ListServices g.servicesResult).2 ∧
    (loadConfigMapsAsync g).error = (ListConfigMaps g.configMapsResult).2 :=
  ⟨rfl, rfl, rfl, rfl, rfl, rfl, rfl, rfl, rfl, rfl, rfl⟩

/-- The selection invariant exactly as the claim states it: the index
lies in [0, max(1, length of the current filtered view)) and is 0
whenever the filtered view is empty. -/
def claimedSelectionInvariant (t : TUI) : Prop :=
  0 ≤ t.selected ∧
  t.selected < max 1 ((getFilteredResources t).length : Int) ∧
  ((getFilteredResources t).length = 0 → t.selected = 0)

/-- First cycle of the C4 run: two pods whose names contain "b". -/
def c4Gateway1 : Gateway where
  podsResult := Except.ok [mkPod "beta1", mkPod "beta2"]
  deploymentsResult := Except.ok []
  servicesResult := Except.ok []
  configMapsResult := Except.ok []

/-- Second cycle of the C4 run: only one of the two pods still matches
the filter "b". -/
def c4Gateway2 : Gateway where
  podsResult := Except.ok [mkPod "beta1", mkPod "xray"]
  deploymentsResult := Except.ok []
  servicesResult := Except.ok []
  configMapsResult := Except.ok []

/-- A state reached from the initial state by a completed refresh (two
pods), setFilter "b", moveSelection 1, and a second completed refresh in
which only one pod still matches the filter. -/
def c4State : TUI :=
  processUpdates
    (refreshData
      (moveSelection
        (setFilter
          (processUpdates (refreshData initialTUI)
            (refreshWorkerUpdates c4Gateway1))
          "b")
        1))
    (refreshWorkerUpdates c4Gateway2)

/-- C4 counterexample: after the consumer handles the last RefreshResult
of the second cycle, the selection is re-clamped against the unfiltered
pods collection (length 2, tui.go 552-571), not the filtered view
(length 1), so the state reached by the run above has selectedIndex = 1
with a filtered view of length 1, violating the claimed invariant. -/
theorem c4_counterexample :
    ¬ claimedSelectionInvariant c4State ∧
    c4State.selected = 1 ∧ (getFilteredResources c4State).length = 1 := by
  refine ⟨?_, by decide, by decide⟩
  unfold claimedSelectionInvariant
  decide

theorem currentResources_length (t : TUI) :
    (currentResources t).length =
      match t.currentView with
      | ResourceType.pods => t.pods.length
      | ResourceType.deployments => t.deployments.length
      | ResourceType.services => t.services.length
      | ResourceType.configMaps => t.configMaps.length := by
  cases h : t.currentView <;> simp [currentResources, h]

theorem adjustSelection_selected (t : TUI) :
    (adjustSelection t).selected =
      if ((currentResources t).length : Int) ≤ t.selected then
        if ((currentResources t).length : Int) - 1 < 0 then 0
        else ((currentResources t).length : Int) - 1
      else if t.selected < 0 then 0 else t.selected := by
  rw [currentResources_length]
  cases h : t.currentView <;>
    simp only [adjustSelection, h] <;>
    split_ifs <;> simp_all

theorem adjustSelection_selected_bound (t : TUI) :
    0 ≤ (adjustSelection t).selected ∧
    (adjustSelection t).selected < max 1 ((currentResources t).length : Int) := by
  rw [adjustSelection_selected]
  have h0 : (0 : Int) ≤ ((currentResources t).length : Int) :=
    Int.ofNat_nonneg _
  split_ifs <;> constructor <;> omega

theorem currentResources_adjustSelection (t : TUI) :
    currentResources (adjustSelection t) = currentResources t := rfl

theorem handleDataUpdate_done (t : TUI) (u : DataUpdate)
    (h : (applyUpdate t u).loadingCounter - 1 ≤ 0) :
    handleDataUpdate t u =
      adjustSelection
        { applyUpdate t u with
          loadingCounter := (applyUpdate t u).loadingCounter - 1
          loading := false } := by
  simp only [handleDataUpdate]
  rw [if_pos h]

/-- C4 amended: switchKind and setFilter reset the selection to 0;
moveSelection is a no-op when the filtered view is empty and otherwise
clamps the index into the filtered range; and the consumer's re-clamp
after the last RefreshResult bounds the index by the current kind's
unfiltered collection — max(1, len(collection(currentKind))) — rather
than by the filtered view as the claim stated. -/
theorem c4_amended_selection_bounds :
    (∀ (t : TUI) (rt : ResourceType), (switchKind t rt).selected = 0) ∧
    (∀ (t : TUI) (text : String), (setFilter t text).selected = 0) ∧
    (∀ (t : TUI) (delta : Int),
      ((getFilteredResources t).length = 0 → moveSelection t delta = t) ∧
      (0 < (getFilteredResources t).length →
        0 ≤ (moveSelection t delta).selected ∧
        (moveSelection t delta).selected <
          ((getFilteredResources t).length : Int))) ∧
    (∀ (t : TUI) (u : DataUpdate),
      (handleDataUpdate t u).loadingCounter ≤ 0 →
        0 ≤ (handleDataUpdate t u).selected ∧
        (handleDataUpdate t u).selected <
          max 1 ((currentResources (handleDataUpdate t u)).length : Int)) := by
  refine ⟨fun t rt => rfl, fun t text => rfl, fun t delta => ⟨?_, ?_⟩,
    fun t u hdone => ?_⟩
  · intro h
    simp [moveSelection, h]
  · intro hpos
    have hlen : (0 : Int) < ((getFilteredResources t).length : Int) := by
      exact_mod_cast hpos
    simp only [moveSelection]
    split_ifs with h1 h2 h3 <;> (simp_all; try omega)
  · have h1 : (applyUpdate t u).loadingCounter - 1 ≤ 0 := by
      have := handleDataUpdate_loadingCounter t u
      rw [applyUpdate_loadingCounter]
      omega
    rw [handleDataUpdate_done t u h1, currentResources_adjustSelection]
    exact adjustSelection_selected_bound _

/-- A state one result away from completing its cycle, with a selection
index far outside every bound. -/
def c4WitnessState : TUI :=
  { initialTUI with loadingCounter := 1, selected := 5 }

/-- Witness for C4 amended, at a concrete final update of a cycle. -/
theorem c4_amended_witness :
    0 ≤ (handleDataUpdate c4WitnessState (loadPodsAsync c4Gateway1)).selected ∧
    (handleDataUpdate c4WitnessState (loadPodsAsync c4Gateway1)).selected <
      max 1 ((currentResources (handleDataUpdate c4WitnessState
        (loadPodsAsync c4Gateway1))).length : Int) :=
  c4_amended_selection_bounds.2.2.2 c4WitnessState
    (loadPodsAsync c4Gateway1) (by decide)

/-- Validation of the substring-check embedding: charsContains decides
the contiguous-sublist relation. -/
theorem charsContains_iff_infix (pat s : List Char) :
    charsContains pat s = true ↔ pat <:+: s := by
  induction s with
  | nil =>
    simp [charsContains, List.isEmpty_iff]
  | cons c rest ih =>
    simp [charsContains, ih, List.infix_cons_iff, List.isPrefixOf_iff_prefix,
      or_comm]

/-- The view-mode cycle as the counterexample forces it to be amended:
from YAML a non-Pod kind returns directly to List, so Logs and
Relationships are both skipped; for Pods the full five-state cycle is
taken. -/
def nextViewModeSpec (isPods : Bool) : ViewMode → ViewMode
  | ViewMode.list => ViewMode.details
  | ViewMode.details => ViewMode.yaml
  | ViewMode.yaml => if isPods then ViewMode.logs else ViewMode.list
  | ViewMode.logs => ViewMode.relationships
  | ViewMode.relationships => ViewMode.list

/-- A non-Pod state in YAML view mode. -/
def c5State : TUI :=
  { initialTUI with
      currentView := ResourceType.deployments
      viewMode := ViewMode.yaml }

/-- C5 counterexample: with the Deployments kind current and view mode
YAML, the cycling command goes back to List (tui.go 640-645), not to
Relationships as the claim states. -/
theorem c5_counterexample :
    (nextViewMode c5State).viewMode = ViewMode.list ∧
    ¬ (nextViewMode c5State).viewMode = ViewMode.relationships := by
  decide

/-- C5 amended: the cycling command advances List → Details → YAML →
Logs → Relationships → List when the current kind is Pod, and List →
Details → YAML → List when it is not (Logs and Relationships are both
skipped); the initial view mode is List. -/
theorem c5_amended_view_mode_cycle :
    (∀ t : TUI, (nextViewMode t).viewMode =
      nextViewModeSpec (t.currentView == ResourceType.pods) t.viewMode) ∧
    initialTUI.viewMode = ViewMode.list := by
  refine ⟨fun t => ?_, rfl⟩
  cases hv : t.viewMode <;> cases hc : t.currentView <;>
    simp [nextViewMode, nextViewModeSpec, hv, hc]

/-- A pod whose name contains the active filter text. -/
def c6Resource : Resource := Resource.pod (mkPod "abc")

/-- Simple filter mode with filter "a" and the inverse flag set. -/
def c6State : TUI := { initialTUI with filter := "a", inverseFilter := true }

/-- C6 counterexample: in simple filter mode the early return at
tui.go 1105-1110 never reaches the inverse negation at tui.go 1169, so a
matching pod matches both with and without the inverse flag instead of
being negated. -/
theorem c6_counterexample :
    matchesFilter c6State c6Resource = true ∧
    matchesFilter { c6State with inverseFilter := false } c6Resource = true := by
  decide

/-- C6 amended: the inverse flag negates the combined match only in
advanced filter mode and only for resources with a nonempty display
name; in simple mode it is ignored, and an empty-named resource is
rejected regardless of the flag. -/
theorem c6_amended_inverse_flag (t : TUI) (r : Resource) :
    (t.filterMode = false →
      matchesFilter { t with inverseFilter := true } r =
        matchesFilter { t with inverseFilter := false } r) ∧
    (t.filterMode = true → getResourceName r ≠ "" →
      matchesFilter { t with inverseFilter := true } r =
        !(matchesFilter { t with inverseFilter := false } r)) ∧
    (t.filterMode = true → getResourceName r = "" →
      matchesFilter { t with inverseFilter := true } r = false ∧
      matchesFilter { t with inverseFilter := false } r = false) := by
  refine ⟨fun hm => ?_, fun hm hn => ?_, fun hm hn => ?_⟩
  · simp [matchesFilter, hm]
  · simp [matchesFilter, columnFiltersMatch, hm, hn]
  · simp [matchesFilter, hm, hn]

/-- Advanced filter mode with filter "a". -/
def c6AdvState : TUI := { initialTUI with filterMode := true, filter := "a" }

/-- Witness for C6 amended: in advanced mode the inverse flag does
negate the match. -/
theorem c6_amended_witness :
    matchesFilter { c6AdvState with inverseFilter := true } c6Resource =
      !(matchesFilter { c6AdvState with inverseFilter := false } c6Resource) :=
  (c6_amended_inverse_flag c6AdvState c6Resource).2.1 rfl (by decide)

/-- C7: the regex flag never changes the outcome of the match predicate
— both its branches in matchesFilter and in the column loop are the
plain substring check (the TODOs at tui.go 1118 and 1142) — so the
filtered view is unchanged by the flag. -/
theorem c7_regex_flag_noop (t : TUI) (r : Resource) :
    matchesFilter { t with useRegex := true } r =
      matchesFilter { t with useRegex := false } r ∧
    getFilteredResources { t with useRegex := true } =
      getFilteredResources { t with useRegex := false } := by
  have hm : ∀ x : Resource, matchesFilter { t with useRegex := true } x =
      matchesFilter { t with useRegex := false } x := by
    intro x
    simp [matchesFilter, columnFiltersMatch]
  refine ⟨hm r, ?_⟩
  have hc : currentResources { t with useRegex := true } =
      currentResources { t with useRegex := false } := rfl
  simp only [getFilteredResources, filterList, hc]
  split_ifs with h1
  · rfl
  · exact List.filter_congr fun x _ => hm x

/-- C8: filtering is idempotent and yields an ordered subsequence —
applying the filtering half of getFilteredResources to its own output
returns it unchanged, the output is a sublist of the input, and
getFilteredResources is that function applied to the current kind's
collection. -/
theorem c8_filter_idempotent_sublist (t : TUI) (X : List Resource) :
    filterList t (filterList t X) = filterList t X ∧
    (filterList t X).Sublist X ∧
    getFilteredResources t = filterList t (currentResources t) := by
  refine ⟨?_, ?_, rfl⟩
  · unfold filterList
    split_ifs with h
    · rfl
    · rw [List.filter_filter]
      simp
  · unfold filterList
    split_ifs with h
    · exact List.Sublist.refl X
    · exact List.filter_sublist X

/-- The relationship predicate exactly as the claim words it: every
selector key/value pair must be present in the pod's labels with an
equal value. -/
def podMatchesServiceSpec (pod : Pod) (svc : Service) : Bool :=
  svc.selector.all fun kv =>
    match pod.labels.find? (fun p => p.1 == kv.1) with
    | some p => p.2 == kv.2
    | none => false

/-- A pod with no labels at all. -/
def c9Pod : Pod := mkPod "p"

/-- A service whose selector carries an empty-string value. -/
def c9Svc : Service := { mkService "s" with selector := [("app", "")] }

/-- C9 counterexample: Go's map read returns the zero value "" for an
absent key (tui.go 1649), so a pod lacking the selector key matches a
selector entry with value "" — against the claim that an absent key
never matches. -/
theorem c9_counterexample :
    podMatchesService c9Pod c9Svc = true ∧
    podMatchesServiceSpec c9Pod c9Svc = false := by
  decide

/-- C9 amended: a pod matches a service iff every selector key/value
pair agrees with the pod's label map read with Go zero-value semantics
(an absent key reads as ""); when every selector value is nonempty this
coincides with the claimed present-and-equal reading, so in that case a
pod lacking a selector key does not match. -/
theorem c9_amended_label_selector (pod : Pod) (svc : Service) :
    (podMatchesService pod svc = true ↔
      ∀ kv ∈ svc.selector, lookupD pod.labels kv.1 = kv.2) ∧
    ((∀ kv ∈ svc.selector, kv.2 ≠ "") →
      podMatchesService pod svc = podMatchesServiceSpec pod svc) := by
  constructor
  · simp [podMatchesService, List.all_eq_true]
  · intro hne
    rw [Bool.eq_iff_iff]
    simp only [podMatchesService, podMatchesServiceSpec, List.all_eq_true]
    have key : ∀ kv ∈ svc.selector,
        ((lookupD pod.labels kv.1 == kv.2) = true ↔
          (match pod.labels.find? (fun p => p.1 == kv.1) with
           | some p => p.2 == kv.2
           | none => false) = true) := by
      intro kv hkv
      unfold lookupD
      cases hfind : pod.labels.find? (fun p => p.1 == kv.1) with
      | some p => simp
      | none =>
        simp only [Bool.false_eq_true, iff_false, beq_iff_eq]
        intro hcontra
        exact hne kv hkv hcontra.symm
    exact ⟨fun h kv hkv => (key kv hkv).mp (h kv hkv),
      fun h kv hkv => (key kv hkv).mpr (h kv hkv)⟩

/-- A pod carrying the selector's label, for the C9 witness. -/
def c9LabelledPod : Pod :=
  { mkPod "q" with labels := [("app", "web")] }

/-- A service selecting on a nonempty value, for the C9 witness. -/
def c9WitSvc : Service := { mkService "s2" with selector := [("app", "web")] }

/-- Witness for C9 amended at a selector with nonempty values. -/
theorem c9_amended_witness :
    podMatchesService c9LabelledPod c9WitSvc =
      podMatchesServiceSpec c9LabelledPod c9WitSvc :=
  (c9_amended_label_selector c9LabelledPod c9WitSvc).2 (by decide)

/-- C10: whenever the selection index is outside the filtered view
(in particular whenever the view is empty), getSelectedResource is nil;
deleting then changes nothing and issues no gateway call, and the
details and YAML views render only the no-resource message. -/
theorem c10_nil_selection_is_safe (t : TUI) (confirmYes : Bool)
    (deleteErr : Option String)
    (h : t.selected < 0 ∨
      ((getFilteredResources t).length : Int) ≤ t.selected) :
    getSelectedResource t = none ∧
    deleteSelectedResource t confirmYes deleteErr = (t, none) ∧
    drawDetailsView t = ["No resource selected"] ∧
    drawYAMLView t = ["No resource selected"] := by
  have hnone : getSelectedResource t = none := by
    unfold getSelectedResource
    rcases h with h | h <;> simp [h]
  refine ⟨hnone, ?_, ?_, ?_⟩
  · unfold deleteSelectedResource
    rw [hnone]
  · unfold drawDetailsView
    rw [hnone]
  · unfold drawYAMLView
    rw [hnone]

/-- Witness for C10 at the initial state (empty filtered view). -/
theorem c10_witness :
    getSelectedResource initialTUI = none ∧
    deleteSelectedResource initialTUI true none = (initialTUI, none) ∧
    drawDetailsView initialTUI = ["No resource selected"] ∧
    drawYAMLView initialTUI = ["No resource selected"] :=
  c10_nil_selection_is_safe initialTUI true none (Or.inr (by decide))

end KGo
